import Mathlib

/-!
Verification of the conplicity repository (Docker volume backup orchestrator).

The development shallowly embeds the three source units:
* `main` package (`part_000`): orchestration loop `main`, `backupVolume`,
  `pullImage`, `getVolumeLabel`, `checkErr`;
* `volume` package (`volume.go`): Duplicity engine operations `Volume.Backup`
  and `Volume.Status`, with Go regular-expression capture and `time.Parse`;
* Restic engine (embedded in the README bundle): `ResticEngine.init` and
  `ResticEngine.resticBackup`.

External processes (the Docker daemon, the launched duplicity/restic worker)
are modelled by passing their observable outcome — exit code, captured output,
launch error — as explicit inputs to the embedded functions.
-/

set_option autoImplicit false

namespace Conplicity

/-! ### Go `time` model

`volume.go` parses timestamps with `time.Parse(timeFormat, s)` where
`timeFormat = "Mon Jan 2 15:04:05 2006"`, and converts them to epoch seconds
with `Time.Unix()`. We model a parsed time as a civil date-time (always UTC,
since the layout carries no zone) and epoch conversion by the standard
days-from-civil computation.
-/

/-- A calendar time as produced by Go `time.Parse` with the layout
`Mon Jan 2 15:04:05 2006`.  The layout has no zone, so the location is UTC. -/
structure GoTime where
  year : Nat
  month : Nat
  day : Nat
  hour : Nat
  minute : Nat
  second : Nat
deriving DecidableEq

/-- The zero value of Go `time.Time`: January 1 of year 1, 00:00:00 UTC.
`time.Parse` returns it alongside a non-nil error when parsing fails. -/
def zeroTime : GoTime := ⟨1, 1, 1, 0, 0, 0⟩

/-- Gregorian leap-year rule, as in Go `time.isLeap`. -/
def isLeapYear (y : Nat) : Bool :=
  y % 4 = 0 && (y % 100 ≠ 0 || y % 400 = 0)

/-- Number of days in a month, as in Go `time.daysIn`. -/
def daysInMonth (y m : Nat) : Nat :=
  if m = 2 then (if isLeapYear y then 29 else 28)
  else if m = 4 ∨ m = 6 ∨ m = 9 ∨ m = 11 then 30
  else 31

/-- Days from the Unix epoch (1970-01-01) to the civil date `y-m-d`
(standard days-from-civil computation, using floor division). -/
def daysFromCivil (y m d : Int) : Int :=
  let yA : Int := if m ≤ 2 then y - 1 else y
  let era : Int := Int.fdiv yA 400
  let yoe : Int := yA - era * 400
  let mp : Int := if m ≤ 2 then m + 9 else m - 3
  let doy : Int := Int.fdiv (153 * mp + 2) 5 + d - 1
  let doe : Int := yoe * 365 + Int.fdiv yoe 4 - Int.fdiv yoe 100 + doy
  era * 146097 + doe - 719468

/-- Go `Time.Unix()`: seconds since the Unix epoch (negative before 1970). -/
def GoTime.unix (t : GoTime) : Int :=
  daysFromCivil (t.year : Int) (t.month : Int) (t.day : Int) * 86400
    + (t.hour : Int) * 3600 + (t.minute : Int) * 60 + (t.second : Int)

/-! ### Go `time.Parse` with layout `Mon Jan 2 15:04:05 2006` -/

/-- Lower-case an ASCII letter, as in the case-folding of Go `time.match`. -/
def lowerChar (c : Char) : Char :=
  if 'A' ≤ c && c ≤ 'Z' then Char.ofNat (c.toNat + 32) else c

/-- Case-insensitive ASCII character comparison (Go `time.match`). -/
def ciEq (a b : Char) : Bool := lowerChar a = lowerChar b

/-- Strip `name` from the front of `s`, case-insensitively, returning the
remainder; `none` when `s` does not start with `name`. -/
def ciStrip : List Char → List Char → Option (List Char)
  | [], s => some s
  | _ :: _, [] => none
  | a :: as, b :: bs => if ciEq a b then ciStrip as bs else none

/-- Find the first table entry that heads `s` (Go `time.lookup`), returning
its associated value and the remainder of `s`. -/
def lookupName : List (List Char × Nat) → List Char → Option (Nat × List Char)
  | [], _ => none
  | (n, v) :: tail, s =>
    match ciStrip n s with
    | some r => some (v, r)
    | none => lookupName tail s

/-- Go `shortDayNames`; the parsed weekday is ignored by `time.Parse`. -/
def shortDayNames : List (List Char × Nat) :=
  [("Sun".data, 0), ("Mon".data, 1), ("Tue".data, 2), ("Wed".data, 3),
   ("Thu".data, 4), ("Fri".data, 5), ("Sat".data, 6)]

/-- Go `shortMonthNames`, mapped to month numbers. -/
def shortMonthNames : List (List Char × Nat) :=
  [("Jan".data, 1), ("Feb".data, 2), ("Mar".data, 3), ("Apr".data, 4),
   ("May".data, 5), ("Jun".data, 6), ("Jul".data, 7), ("Aug".data, 8),
   ("Sep".data, 9), ("Oct".data, 10), ("Nov".data, 11), ("Dec".data, 12)]

/-- Numeric value of an ASCII digit. -/
def digitVal (c : Char) : Option Nat :=
  if '0' ≤ c && c ≤ '9' then some (c.toNat - 48) else none

/-- Go `getnum(value, false)`: one or two digits. -/
def getnum : List Char → Option (Nat × List Char)
  | [] => none
  | c :: tail =>
    match digitVal c, tail with
    | none, _ => none
    | some d, [] => some (d, [])
    | some d, c2 :: tail2 =>
      match digitVal c2 with
      | some d2 => some (10 * d + d2, tail2)
      | none => some (d, c2 :: tail2)

/-- Go `getnum(value, true)` for a two-digit field. -/
def getnumFixed : List Char → Option (Nat × List Char)
  | c1 :: c2 :: tail => do
    let d1 ← digitVal c1
    let d2 ← digitVal c2
    some (10 * d1 + d2, tail)
  | _ => none

/-- Go long-year field: exactly four digits. -/
def getnum4 : List Char → Option (Nat × List Char)
  | c1 :: c2 :: c3 :: c4 :: tail => do
    let d1 ← digitVal c1
    let d2 ← digitVal c2
    let d3 ← digitVal c3
    let d4 ← digitVal c4
    some (1000 * d1 + 100 * d2 + 10 * d3 + d4, tail)
  | _ => none

/-- Consume one expected literal character. -/
def expectChar (c : Char) : List Char → Option (List Char)
  | x :: tail => if x = c then some tail else none
  | [] => none

/-- Go `time.Parse` specialised to the layout `Mon Jan 2 15:04:05 2006`
(the `timeFormat` constant of `volume.go`).  The weekday name is parsed but
not checked against the date, exactly as in Go; after parsing, Go validates
the day against the month length and the clock fields against their ranges,
and rejects trailing text. -/
def timeParse (s : String) : Option GoTime := do
  let (_, r1) ← lookupName shortDayNames s.data
  let r2 ← expectChar ' ' r1
  let (mo, r3) ← lookupName shortMonthNames r2
  let r4 ← expectChar ' ' r3
  let (d, r5) ← getnum r4
  let r6 ← expectChar ' ' r5
  let (h, r7) ← getnum r6
  let r8 ← expectChar ':' r7
  let (mi, r9) ← getnumFixed r8
  let r10 ← expectChar ':' r9
  let (se, r11) ← getnumFixed r10
  let r12 ← expectChar ' ' r11
  let (y, r13) ← getnum4 r12
  if r13.isEmpty && h < 24 && mi < 60 && se < 60 && 1 ≤ d && d ≤ daysInMonth y mo then
    some ⟨y, mo, d, h, mi, se⟩
  else
    none

/-- Go `unicode.IsSpace` restricted to the Latin-1 range (the whitespace
characters that `strings.TrimSpace` removes for the outputs at hand). -/
def isGoSpace (c : Char) : Bool :=
  c = ' ' || c = '\t' || c = '\n' || c = '\x0b' || c = '\x0c' || c = '\r'
    || c = '\x85' || c = '\xa0'

/-- Go `strings.TrimSpace`. -/
def trimSpace (s : String) : String :=
  String.mk (((s.data.dropWhile isGoSpace).reverse.dropWhile isGoSpace).reverse)

/-! ### Go regular-expression capture

`volume.go` uses the patterns `Last full backup date: (.+)` and
`Chain end time: (.+)` via `FindStringSubmatch`, i.e. the leftmost match of a
literal prefix followed by a greedy capture of at least one non-newline
character. -/

/-- Strip the literal `pat` from the front of `s`, returning the remainder. -/
def stripLit : List Char → List Char → Option (List Char)
  | [], s => some s
  | _ :: _, [] => none
  | p :: ps, c :: cs => if p = c then stripLit ps cs else none

/-- First capture of the Go regular expression `<pat>(.+)` in `s`
(`FindStringSubmatch`, group 1): at the leftmost position where the literal
`pat` matches and is followed by at least one non-newline character, the
greedy capture runs to the end of the line. -/
def findCapture (pat : List Char) : List Char → Option (List Char)
  | [] => none
  | c :: tail =>
    match stripLit pat (c :: tail) with
    | some (a :: after) =>
      if a = '\n' then findCapture pat tail
      else some ((a :: after).takeWhile (fun x => x ≠ '\n'))
    | _ => findCapture pat tail

/-- Go `strings.Contains`. -/
def hasSubstr (pat : List Char) : List Char → Bool
  | [] => pat.isEmpty
  | c :: tail => (stripLit pat (c :: tail)).isSome || hasSubstr pat tail

/-! ### The `volume` package (`volume.go`): Duplicity engine operations

`LaunchDuplicity` lives in the `handler` package (not under `src/`); its
observable outcome — the worker's exit code, the captured combined output and
the launch error, with a non-zero exit code not being a launch error — is
passed to each operation as an explicit `LaunchResult` input.
`util.CheckErr(err, msg, code)` is the repository's `checkErr` (present in
`src/unnamed/part_000`): it logs when `err` is non-nil and calls
`os.Exit(code)` unless `code` is `-1`. -/

/-- Observable outcome of launching one worker: its exit code (`state` in the
Go sources), the captured combined output, and the launch error (nil when the
worker ran to completion, whatever its exit code). -/
structure LaunchResult where
  exitCode : Int
  stdout : String
  err : Option String
deriving DecidableEq

/-- Result of a Go function that may instead terminate the process through
`checkErr`/`util.CheckErr` with a positive exit code. -/
inductive OpResult where
  | fatal (code : Int)
  | ret (metrics : List String) (err : Option String)
deriving DecidableEq

/-- The error component of a normally-returning operation. -/
def OpResult.errOf : OpResult → Option String
  | .fatal _ => none
  | .ret _ e => e

/-- The metrics component of a normally-returning operation. -/
def OpResult.metricsOf : OpResult → List String
  | .fatal _ => []
  | .ret ms _ => ms

/-- The `Volume` struct of the `volume` package. -/
structure Volume where
  name : String
  target : String
  backupDir : String
  mount : String
  fullIfOlderThan : String
  removeOlderThan : String
deriving DecidableEq

/-- One Prometheus metric line, as produced by the
`fmt.Sprintf("conplicity\x7bvolume=\"%v\",what=\"%v\"\x7d %v", ...)` calls. -/
def metricLine (volName what value : String) : String :=
  "conplicity\x7bvolume=\"" ++ volName ++ "\",what=\"" ++ what ++ "\"\x7d "
    ++ value

/-- The literal part of the pattern `Last full backup date: (.+)`. -/
def fullBackupLit : List Char := "Last full backup date: ".data

/-- The literal part of the pattern `Chain end time: (.+)`. -/
def chainEndTimeLit : List Char := "Chain end time: ".data

/-- `Volume.Backup` of `volume.go`: launches duplicity, dies with exit code 1
on a launch error (`util.CheckErr(err, ..., 1)`), and otherwise returns the
single `backupExitCode` metric carrying the worker's exit code, with a nil
error. -/
def Volume.Backup (v : Volume) (launch : LaunchResult) : OpResult :=
  match launch.err with
  | some _ => .fatal 1
  | none =>
    .ret [metricLine v.name "backupExitCode" (toString launch.exitCode)] none

/-- `Volume.Status` of `volume.go`: launches `collection-status`, dies with
exit code 1 on a launch error, then extracts the two markers from the
captured output.  A missing marker produces an `errors.New` message naming
the marker and the volume and returns early with no metrics.  A marker whose
text does not parse leaves the corresponding date at the `time.Time` zero
value (the parse error is logged by `util.CheckErr(err, ..., -1)`, which does
not exit; the error variable is overwritten by the later `time.Parse` call
before any return can observe it). -/
def Volume.Status (v : Volume) (launch : LaunchResult) : OpResult :=
  match launch.err with
  | some _ => .fatal 1
  | none =>
    match findCapture fullBackupLit launch.stdout.data with
    | none =>
      .ret [] (some ("Failed to parse Duplicity output for last full backup date of "
        ++ v.name))
    | some cap1 =>
      let p1 := timeParse (trimSpace (String.mk cap1))
      let fullBackupDate := p1.getD zeroTime
      match findCapture chainEndTimeLit launch.stdout.data with
      | none =>
        .ret [] (some ("Failed to parse Duplicity output for chain end time of "
          ++ v.name))
      | some cap2 =>
        let p2 := timeParse (trimSpace (String.mk cap2))
        let chainEndTimeDate := p2.getD zeroTime
        let err2 : Option String :=
          if p2.isSome then none else some "chain end time parse error"
        .ret [metricLine v.name "lastBackup" (toString chainEndTimeDate.unix),
              metricLine v.name "lastFullBackup" (toString fullBackupDate.unix)]
          err2

/-! ### The Restic engine (README bundle): `init` and `resticBackup`

`launchRestic` returns `(state int, stdout string, err error)`; as with the
Duplicity launcher its outcome is an explicit `LaunchResult` input. -/

/-- `ResticEngine.init`: the output check for `already initialized` comes
first and clears any error; only then are the launch error and the exit code
examined. -/
def ResticEngine.init (launch : LaunchResult) : Option String :=
  if hasSubstr "already initialized".data launch.stdout.data then none
  else
    match launch.err with
    | some e => some ("failed to launch Restic to initialize the repository: " ++ e)
    | none =>
      if launch.exitCode ≠ 0 then
        some ("Restic existed with state " ++ toString launch.exitCode
          ++ " while initializing repository")
      else none

/-- `ResticEngine.resticBackup`: builds an error from the launch error, then
unconditionally overwrites it when the exit code is non-zero; no metric is
produced. -/
def ResticEngine.resticBackup (launch : LaunchResult) : Option String :=
  let e1 : Option String :=
    match launch.err with
    | some e => some ("failed to launch Restic to backup the volume: " ++ e)
    | none => none
  if launch.exitCode ≠ 0 then
    some ("Restic exited with state " ++ toString launch.exitCode
      ++ " while backuping the volume")
  else e1

/-! ### The `main` package (`src/unnamed/part_000`): orchestration

The Docker client calls are modelled by their observable outcomes carried on
each discovered volume (`inspectErr`, `createErr`, `startOutcome`) and on the
run (`listErr`, image availability).  `backupVolume` and the `main` loop are
embedded as trace-producing functions: `events` records the worker lifecycle
calls (container create, `dockerpty.Start`, forced `RemoveContainer`) and
`errlog` the `log.Errorf` lines emitted through `checkErr`. -/

/-- Worker lifecycle calls made against the Docker client. -/
inductive Event where
  | createAttempt (cmd env : List String)
  | startAttempt (binds : List String)
  | removed
deriving DecidableEq

/-- Outcome of `dockerpty.Start`: normal return, error return, or a panic
escaping the call. -/
inductive StartOutcome where
  | ok
  | fail (e : String)
  | panic
deriving DecidableEq

/-- A discovered volume together with the observable outcomes of the Docker
calls made for it. -/
structure VolInput where
  name : String
  driver : String
  mountpoint : String
  labels : List (String × String)
  inspectErr : Option String
  createErr : Option String
  startOutcome : StartOutcome
deriving DecidableEq

/-- The `environment` struct plus the hostname, as held by the `conplicity`
handler struct. -/
structure GlobalEnv where
  image : String
  duplicityTargetURL : String
  awsAccessKeyID : String
  awsSecretAccessKey : String
  swiftUsername : String
  swiftPassword : String
  swiftAuthURL : String
  swiftTenantName : String
  swiftRegionName : String
  fullIfOlderThan : String
  hostname : String
deriving DecidableEq

/-- `getVolumeLabel`: looks the key up in the volume's label map under the
`io.conplicity` namespace; a Go map lookup yields the zero value `""` for an
absent key. -/
def getVolumeLabel (v : VolInput) (key : String) : String :=
  (v.labels.lookup ("io.conplicity" ++ key)).getD ""

/-- The `log.Errorf` line emitted by `checkErr(err, msg+": %v", _)`:
one line when the error is non-nil, none otherwise. -/
def checkErrLog (err : Option String) (msg : String) : List String :=
  match err with
  | some e => [msg ++ e]
  | none => []

/-- Result of `backupVolume`: the Docker calls made, the error log, the
returned error, a process exit requested through `checkErr` with a positive
code, and whether a panic escaped. -/
structure BVResult where
  events : List Event
  errlog : List String
  err : Option String
  exitCode : Option Int
  panicked : Bool
deriving DecidableEq

/-- `backupVolume` of the `main` package.  Skips 64-character (anonymous)
names and `io.conplicity.ignore=true` volumes; resolves the retention
threshold from the `.full_if_older_than` label with the global default as
fallback; creates the duplicity container (a create failure goes through
`checkErr(err, ..., 1)`, which logs and exits the process before the
`defer` of `RemoveContainer` is installed); once the container is created,
the deferred forced `RemoveContainer` runs on every exit path, including a
panic escaping `dockerpty.Start` (a start error goes through
`checkErr(err, ..., -1)`, which only logs, and the error is returned). -/
def backupVolume (c : GlobalEnv) (v : VolInput) : BVResult :=
  if v.name.length = 64 then
    ⟨[], [], none, none, false⟩
  else if getVolumeLabel v ".ignore" = "true" then
    ⟨[], [], none, none, false⟩
  else
    let fullIfOlderThan :=
      if getVolumeLabel v ".full_if_older_than" = "" then c.fullIfOlderThan
      else getVolumeLabel v ".full_if_older_than"
    let cmd := ["--full-if-older-than", fullIfOlderThan, "--s3-use-new-style",
      "--no-encryption", "--allow-source-mismatch", "/var/backups",
      c.duplicityTargetURL ++ "/" ++ c.hostname ++ "/" ++ v.name]
    let env := ["AWS_ACCESS_KEY_ID=" ++ c.awsAccessKeyID,
      "AWS_SECRET_ACCESS_KEY=" ++ c.awsSecretAccessKey,
      "SWIFT_USERNAME=" ++ c.swiftUsername,
      "SWIFT_PASSWORD=" ++ c.swiftPassword,
      "SWIFT_AUTHURL=" ++ c.swiftAuthURL,
      "SWIFT_TENANTNAME=" ++ c.swiftTenantName,
      "SWIFT_REGIONNAME=" ++ c.swiftRegionName,
      "SWIFT_AUTHVERSION=2"]
    match v.createErr with
    | some e =>
      ⟨[.createAttempt cmd env],
       ["Failed to create container for volume " ++ v.name ++ ": " ++ e],
       none, some 1, false⟩
    | none =>
      let binds := [v.mountpoint ++ ":/var/backups:ro"]
      match v.startOutcome with
      | .ok =>
        ⟨[.createAttempt cmd env, .startAttempt binds, .removed],
         [], none, none, false⟩
      | .fail e =>
        ⟨[.createAttempt cmd env, .startAttempt binds, .removed],
         ["Failed to start container for volume " ++ v.name ++ ": " ++ e],
         some e, none, false⟩
      | .panic =>
        ⟨[.createAttempt cmd env, .startAttempt binds, .removed],
         [], none, none, true⟩

/-- How the orchestration run ends: `os.Exit` with a code, a crash from an
escaped panic, or normal completion. -/
inductive RunOutcome where
  | exited (code : Int)
  | crashed
  | completed
deriving DecidableEq

/-- The observable result of the orchestration run. -/
structure RunResult where
  events : List Event
  errlog : List String
  outcome : RunOutcome
deriving DecidableEq

/-- The per-volume loop of `main`.  The inspect error of each volume is
discarded (`voll, _ := c.InspectVolume(...)`); the adjacent
`checkErr(err, "Failed to inspect volume ...", -1)` tests the stale error of
the previous iteration, so it only logs.  When the inspection did fail,
`voll` is nil and `backupVolume` dereferences it, crashing the run.  A
`backupVolume` error goes through `checkErr(err, ..., -1)`: it is logged and
the loop continues. -/
def processVolumes (c : GlobalEnv) : Option String → List VolInput → RunResult
  | _, [] => ⟨[], [], .completed⟩
  | prevErr, v :: tail =>
    let inspectLog := checkErrLog prevErr ("Failed to inspect volume " ++ v.name ++ ": ")
    match v.inspectErr with
    | some _ => ⟨[], inspectLog, .crashed⟩
    | none =>
      let r := backupVolume c v
      match r.exitCode with
      | some code => ⟨r.events, inspectLog ++ r.errlog, .exited code⟩
      | none =>
        if r.panicked then ⟨r.events, inspectLog ++ r.errlog, .crashed⟩
        else
          let processLog := checkErrLog r.err ("Failed to process volume " ++ v.name ++ ": ")
          let rest := processVolumes c r.err tail
          ⟨r.events ++ rest.events,
           inspectLog ++ r.errlog ++ processLog ++ rest.errlog,
           rest.outcome⟩

/-- `pullImage`: the image is pulled only when `InspectImage` fails; the
returned error is the pull error in that case and nil otherwise. -/
def pullImage (inspectImageOk : Bool) (pullErr : Option String) : Option String :=
  if inspectImageOk then none else pullErr

/-- `main` after client construction: `ListVolumes` and `pullImage` failures
go through `checkErr(err, ..., 1)`, which logs and exits the process; then
the per-volume loop runs with the error variable freshly nil. -/
def mainRun (c : GlobalEnv) (listErr : Option String) (inspectImageOk : Bool)
    (pullErr : Option String) (vols : List VolInput) : RunResult :=
  match listErr with
  | some e => ⟨[], ["Failed to list Docker volumes: " ++ e], .exited 1⟩
  | none =>
    match pullImage inspectImageOk pullErr with
    | some e => ⟨[], ["Failed to pull image: " ++ e], .exited 1⟩
    | none => processVolumes c none vols

/-! ### Retry policy

Modelled from the spec: `util.Retry` belongs to the `util` package, which is
not under `src/` (only its call sites `util.Retry(3, r.init)` etc. appear in
the Restic engine).  Per the spec's testable property, `Retry(n, op)` makes
at most `n` attempts in total, stops at the first success, and returns the
error of the final attempt when every attempt fails.  The operation is
modelled as a function from the attempt index to that attempt's outcome, and
the result carries the number of attempts actually made. -/

/-- Attempt loop of `Retry`: `i` is the index of the next attempt, the second
argument the number of attempts still allowed. -/
def retryAux (op : Nat → Option String) : Nat → Nat → Option String × Nat
  | i, 0 => (none, i)
  | i, 1 => (op i, i + 1)
  | i, k + 2 =>
    match op i with
    | none => (none, i + 1)
    | some _ => retryAux op (i + 1) (k + 1)

/-- Modelled from the spec: `util.Retry(n, op)` — the pair of the final error
(nil on success) and the number of invocations of `op`. -/
def Retry (n : Nat) (op : Nat → Option String) : Option String × Nat :=
  retryAux op 0 n

/-! ### Shared concrete inputs -/

/-- A sample volume for the Duplicity engine operations. -/
def sampleVolume : Volume :=
  ⟨"data", "s3://bucket/host1/data", "/var/backups", "data:/var/backups:ro",
   "15D", "30D"⟩

/-- A sample global configuration. -/
def gEnv : GlobalEnv :=
  ⟨"camptocamp/duplicity:latest", "s3://bucket", "", "", "", "", "", "", "",
   "15D", "host1"⟩

/-- A volume whose worker starts but whose `dockerpty.Start` fails. -/
def startFailVol : VolInput := ⟨"sf", "local", "/mnt/sf", [], none, none, .fail "nope"⟩

/-- A volume whose container creation fails. -/
def createFailVol : VolInput := ⟨"cf", "local", "/mnt/cf", [], none, some "boom", .ok⟩

/-- A volume whose `dockerpty.Start` panics. -/
def panicVol : VolInput := ⟨"pv", "local", "/mnt/pv", [], none, none, .panic⟩

/-- A volume carrying the retention-override label with an empty value. -/
def emptyLabelVol : VolInput :=
  ⟨"el", "local", "/mnt/el", [("io.conplicity.full_if_older_than", "")],
   none, none, .ok⟩

/-- Is a volume skipped by `backupVolume` (anonymous or blacklisted)? -/
def isSkipped (v : VolInput) : Prop :=
  v.name.length = 64 ∨ getVolumeLabel v ".ignore" = "true"

instance (v : VolInput) : Decidable (isSkipped v) := by
  unfold isSkipped; infer_instance

/-- Does the per-volume step neither exit the process nor crash it? -/
def noAbort (v : VolInput) : Prop :=
  v.inspectErr = none ∧
    (isSkipped v ∨ (v.createErr = none ∧ v.startOutcome ≠ .panic))

instance (v : VolInput) : Decidable (noAbort v) := by
  unfold noAbort; infer_instance

/-- Recognises the forced-removal event. -/
def isRemoved : Event → Bool
  | .removed => true
  | _ => false

/-! ### Claims -/

/-- C1 counterexample: when the worker exits with code 2 and the launch
itself succeeded, `Volume.Backup` returns the failure metric with value 2 but
a nil error — the claim's "an error is also returned to the caller" is false
for this engine operation. -/
theorem backup_nonzero_exit_no_error :
    OpResult.errOf (Volume.Backup sampleVolume ⟨2, "", none⟩) = none ∧
    OpResult.metricsOf (Volume.Backup sampleVolume ⟨2, "", none⟩) =
      ["conplicity\x7bvolume=\"data\",what=\"backupExitCode\"\x7d 2"] := by
  constructor <;> rfl

/-- C1 (amended): a worker exit code `c` always lands in the
`backupExitCode` metric of `Volume.Backup`, which returns no error either
way; `ResticEngine.resticBackup` produces no metric, returns no error on exit
code 0, and returns an error on a non-zero exit code. -/
theorem exitCode_metric_and_error (v : Volume) (code : Int) (out : String) :
    Volume.Backup v ⟨code, out, none⟩ =
      .ret [metricLine v.name "backupExitCode" (toString code)] none ∧
    ResticEngine.resticBackup ⟨0, out, none⟩ = none ∧
    (¬ code = 0 → (ResticEngine.resticBackup ⟨code, out, none⟩).isSome = true) := by
  refine ⟨rfl, by simp [ResticEngine.resticBackup], ?_⟩
  intro h
  simp [ResticEngine.resticBackup, h]

/-- C1 witness: at exit code 2 the Restic backup step returns an error. -/
theorem exitCode_metric_and_error_witness :
    (ResticEngine.resticBackup ⟨2, "", none⟩).isSome = true :=
  (exitCode_metric_and_error sampleVolume 2 "").2.2 (by decide)

/-- C2: when the launch succeeds and both markers are found with captures
that parse under the fixed format, `Status` returns no error and exactly the
two metrics `lastBackup` (epoch seconds of the chain end time) and
`lastFullBackup` (epoch seconds of the last full backup date). -/
theorem status_two_metrics (v : Volume) (launch : LaunchResult)
    (cap1 cap2 : List Char) (t1 t2 : GoTime)
    (herr : launch.err = none)
    (h1 : findCapture fullBackupLit launch.stdout.data = some cap1)
    (hp1 : timeParse (trimSpace (String.mk cap1)) = some t1)
    (h2 : findCapture chainEndTimeLit launch.stdout.data = some cap2)
    (hp2 : timeParse (trimSpace (String.mk cap2)) = some t2) :
    Volume.Status v launch =
      .ret [metricLine v.name "lastBackup" (toString t2.unix),
            metricLine v.name "lastFullBackup" (toString t1.unix)] none := by
  simp [Volume.Status, herr, h1, h2, hp1, hp2]

/-- C2 witness: a concrete collection-status output with both timestamps. -/
theorem status_two_metrics_witness :
    Volume.Status sampleVolume
      ⟨0, "Last full backup date: Mon Jan 2 15:04:05 2006\nChain end time: Tue Jan 3 10:00:00 2006\n", none⟩ =
      .ret ["conplicity\x7bvolume=\"data\",what=\"lastBackup\"\x7d 1136282400",
            "conplicity\x7bvolume=\"data\",what=\"lastFullBackup\"\x7d 1136214245"]
        none :=
  status_two_metrics sampleVolume
    ⟨0, "Last full backup date: Mon Jan 2 15:04:05 2006\nChain end time: Tue Jan 3 10:00:00 2006\n", none⟩
    "Mon Jan 2 15:04:05 2006".data "Tue Jan 3 10:00:00 2006".data
    ⟨2006, 1, 2, 15, 4, 5⟩ ⟨2006, 1, 3, 10, 0, 0⟩
    rfl (by decide) (by decide) (by decide) (by decide)

/-- C3: when the launch succeeds and one of the two markers is absent from
the output, `Status` returns no metrics and an error naming the missing
marker and the volume. -/
theorem status_missing_marker (v : Volume) (launch : LaunchResult)
    (herr : launch.err = none) :
    (findCapture fullBackupLit launch.stdout.data = none →
      Volume.Status v launch =
        .ret [] (some ("Failed to parse Duplicity output for last full backup date of "
          ++ v.name))) ∧
    (∀ cap1, findCapture fullBackupLit launch.stdout.data = some cap1 →
      findCapture chainEndTimeLit launch.stdout.data = none →
      Volume.Status v launch =
        .ret [] (some ("Failed to parse Duplicity output for chain end time of "
          ++ v.name))) := by
  constructor
  · intro h1
    simp [Volume.Status, herr, h1]
  · intro cap1 h1 h2
    simp [Volume.Status, herr, h1, h2]

/-- C3 witness: outputs missing the full-backup marker and the chain-end
marker respectively. -/
theorem status_missing_marker_witness :
    Volume.Status sampleVolume ⟨0, "no backup sets found\n", none⟩ =
      .ret [] (some "Failed to parse Duplicity output for last full backup date of data") ∧
    Volume.Status sampleVolume ⟨0, "Last full backup date: Mon Jan 2 15:04:05 2006\n", none⟩ =
      .ret [] (some "Failed to parse Duplicity output for chain end time of data") :=
  ⟨(status_missing_marker sampleVolume ⟨0, "no backup sets found\n", none⟩ rfl).1
      (by decide),
   (status_missing_marker sampleVolume
      ⟨0, "Last full backup date: Mon Jan 2 15:04:05 2006\n", none⟩ rfl).2
      "Mon Jan 2 15:04:05 2006".data (by decide) (by decide)⟩

/-- C10: when both markers are present but the full-backup capture does not
parse while the chain-end capture does, `Status` still returns both metrics
and no error, with `lastFullBackup` carrying the epoch encoding of the zero
timestamp. -/
theorem status_zero_date_fallback (v : Volume) (launch : LaunchResult)
    (cap1 cap2 : List Char) (t2 : GoTime)
    (herr : launch.err = none)
    (h1 : findCapture fullBackupLit launch.stdout.data = some cap1)
    (hp1 : timeParse (trimSpace (String.mk cap1)) = none)
    (h2 : findCapture chainEndTimeLit launch.stdout.data = some cap2)
    (hp2 : timeParse (trimSpace (String.mk cap2)) = some t2) :
    Volume.Status v launch =
      .ret [metricLine v.name "lastBackup" (toString t2.unix),
            metricLine v.name "lastFullBackup" (toString zeroTime.unix)] none ∧
    zeroTime.unix = -62135596800 := by
  constructor
  · simp [Volume.Status, herr, h1, h2, hp1, hp2]
  · rfl

/-- C10 witness: an unparseable full-backup date alongside a parseable chain
end time. -/
theorem status_zero_date_fallback_witness :
    Volume.Status sampleVolume
      ⟨0, "Last full backup date: none\nChain end time: Mon Jan 2 15:04:05 2006\n", none⟩ =
      .ret ["conplicity\x7bvolume=\"data\",what=\"lastBackup\"\x7d 1136214245",
            "conplicity\x7bvolume=\"data\",what=\"lastFullBackup\"\x7d -62135596800"]
        none :=
  (status_zero_date_fallback sampleVolume
    ⟨0, "Last full backup date: none\nChain end time: Mon Jan 2 15:04:05 2006\n", none⟩
    "none".data "Mon Jan 2 15:04:05 2006".data ⟨2006, 1, 2, 15, 4, 5⟩
    rfl (by decide) (by decide) (by decide) (by decide)).1

/-- C6: an anonymous volume (64-character identifier) or a volume labeled
`io.conplicity.ignore=true` is skipped: no Docker call is made, nothing is
logged as an error, no error is returned, and the process neither exits nor
panics. -/
theorem skip_anonymous_and_ignored (c : GlobalEnv) (v : VolInput)
    (h : v.name.length = 64 ∨ getVolumeLabel v ".ignore" = "true") :
    backupVolume c v = ⟨[], [], none, none, false⟩ := by
  rcases h with h | h
  · simp [backupVolume, h]
  · by_cases h64 : v.name.length = 64 <;> simp [backupVolume, h, h64]

/-- C6 witness: a 64-character anonymous volume and an ignore-labelled
volume are both skipped with no worker launch. -/
theorem skip_anonymous_and_ignored_witness :
    backupVolume gEnv
      ⟨"aaaaaaaaaaaaaaaabbbbbbbbbbbbbbbbccccccccccccccccdddddddddddddddd",
       "local", "/mnt/a", [], none, none, .ok⟩ = ⟨[], [], none, none, false⟩ ∧
    backupVolume gEnv
      ⟨"cache", "local", "/mnt/cache", [("io.conplicity.ignore", "true")],
       none, none, .ok⟩ = ⟨[], [], none, none, false⟩ :=
  ⟨skip_anonymous_and_ignored gEnv _ (Or.inl (by decide)),
   skip_anonymous_and_ignored gEnv _ (Or.inr (by decide))⟩

/-- C8: whenever the container was successfully created (the volume is not
skipped and creation returned no error), the deferred forced removal runs
exactly once, on every exit path of `dockerpty.Start` — normal return, error
return, or panic. -/
theorem remove_container_once (c : GlobalEnv) (v : VolInput)
    (h64 : ¬ v.name.length = 64)
    (hig : ¬ getVolumeLabel v ".ignore" = "true")
    (hc : v.createErr = none) :
    ((backupVolume c v).events.filter isRemoved).length = 1 := by
  cases hso : v.startOutcome <;>
    simp [backupVolume, h64, hig, hc, hso, isRemoved]

/-- C8 witness: the removal runs exactly once even when the start call
panics. -/
theorem remove_container_once_witness :
    ((backupVolume gEnv panicVol).events.filter isRemoved).length = 1 :=
  remove_container_once gEnv panicVol (by decide) (by decide) rfl

/-- C9: whenever the captured output of the Restic initialization step
contains `already initialized`, `init` returns no error, regardless of the
launch error and of the exit code, because the output check runs first. -/
theorem init_already_initialized (state : Int) (out : String)
    (err : Option String)
    (h : hasSubstr "already initialized".data out.data = true) :
    ResticEngine.init ⟨state, out, err⟩ = none := by
  simp [ResticEngine.init, h]

/-- C9 witness: a failed launch with non-zero exit code whose output still
says the repository is already initialized. -/
theorem init_already_initialized_witness :
    ResticEngine.init
      ⟨1, "repository at s3 already initialized", some "launch failed"⟩ = none :=
  init_already_initialized 1 "repository at s3 already initialized"
    (some "launch failed") (by decide)

/-! ### Retry lemmas (C5) -/

/-- If the first `k` attempts starting at index `i` fail and attempt `i + k`
succeeds within the allowance `f`, the loop stops there with no error after
`k + 1` further invocations. -/
theorem retryAux_success (op : Nat → Option String) :
    ∀ (f k i : Nat), k < f → (∀ j, j < k → (op (i + j)).isSome = true) →
      op (i + k) = none → retryAux op i f = (none, i + k + 1) := by
  intro f
  induction f with
  | zero => exact fun k i hk => absurd hk (Nat.not_lt_zero k)
  | succ f ih =>
    intro k i hk hfail hsucc
    cases k with
    | zero =>
      rw [Nat.add_zero] at hsucc
      cases f with
      | zero => simp [retryAux, hsucc]
      | succ f => simp [retryAux, hsucc]
    | succ k =>
      cases f with
      | zero => omega
      | succ f =>
        obtain ⟨e, he⟩ := Option.isSome_iff_exists.mp
          (by simpa using hfail 0 (Nat.succ_pos k))
        rw [show retryAux op i (f + 1 + 1) = retryAux op (i + 1) (f + 1) by
          simp [retryAux, he]]
        have hfail2 : ∀ j, j < k → (op (i + 1 + j)).isSome = true := by
          intro j hj
          have := hfail (j + 1) (by omega)
          rwa [show i + (j + 1) = i + 1 + j by omega] at this
        have hsucc2 : op (i + 1 + k) = none := by
          rwa [show i + (k + 1) = i + 1 + k by omega] at hsucc
        rw [ih k (i + 1) (by omega) hfail2 hsucc2]
        congr 1
        omega

/-- If every allowed attempt starting at index `i` fails, the loop makes all
`f` invocations and ends with the error of the final attempt. -/
theorem retryAux_allfail (op : Nat → Option String) :
    ∀ (f i : Nat), 1 ≤ f → (∀ j, j < f → (op (i + j)).isSome = true) →
      (retryAux op i f).1.isSome = true ∧ (retryAux op i f).2 = i + f := by
  intro f
  induction f with
  | zero => intro i h; omega
  | succ f ih =>
    intro i _ hfail
    cases f with
    | zero =>
      refine ⟨?_, by simp [retryAux]⟩
      simpa [retryAux] using hfail 0 Nat.one_pos
    | succ f =>
      obtain ⟨e, he⟩ := Option.isSome_iff_exists.mp
        (by simpa using hfail 0 (Nat.succ_pos (f + 1)))
      rw [show retryAux op i (f + 1 + 1) = retryAux op (i + 1) (f + 1) by
        simp [retryAux, he]]
      have hfail2 : ∀ j, j < f + 1 → (op (i + 1 + j)).isSome = true := by
        intro j hj
        have := hfail (j + 1) (by omega)
        rwa [show i + (j + 1) = i + 1 + j by omega] at this
      obtain ⟨ha, hb⟩ := ih (i + 1) (by omega) hfail2
      exact ⟨ha, by omega⟩

/-- C5: for `n ≥ 1`, when the operation fails on its first `k < n` attempts
and succeeds on the next, `Retry` returns no error after exactly `k + 1`
invocations; when every attempt fails, `Retry` returns an error after exactly
`n` invocations. -/
theorem retry_attempt_counts (n k : Nat) (op : Nat → Option String)
    (hn : 1 ≤ n) :
    (k < n → (∀ j, j < k → (op j).isSome = true) → op k = none →
      Retry n op = (none, k + 1)) ∧
    ((∀ j, j < n → (op j).isSome = true) →
      (Retry n op).1.isSome = true ∧ (Retry n op).2 = n) := by
  constructor
  · intro hk hfail hsucc
    have := retryAux_success op n k 0 hk
      (by intro j hj; simpa using hfail j hj) (by simpa using hsucc)
    simpa [Retry] using this
  · intro hfail
    have := retryAux_allfail op n 0 hn
      (by intro j hj; simpa using hfail j hj)
    simpa [Retry] using this

/-- An operation that fails only on its first attempt. -/
def flakyOp (i : Nat) : Option String :=
  if i = 0 then some "transient" else none

/-- An operation that fails on every attempt. -/
def alwaysFailOp (_ : Nat) : Option String := some "permanent"

/-- C5 witness: with three allowed attempts, one initial failure costs two
invocations and ends in success; constant failure costs all three invocations
and ends in an error. -/
theorem retry_attempt_counts_witness :
    Retry 3 flakyOp = (none, 2) ∧
    (Retry 3 alwaysFailOp).1.isSome = true ∧ (Retry 3 alwaysFailOp).2 = 3 := by
  refine ⟨(retry_attempt_counts 3 1 flakyOp (by decide)).1 (by decide)
    (by decide) (by decide), ?_⟩
  exact (retry_attempt_counts 3 0 alwaysFailOp (by decide)).2 (by decide)

/-! ### Orchestration lemmas (C4) -/

/-- A volume that is skipped, or whose worker is created and started without
a panic, neither exits nor crashes the process in `backupVolume`. -/
theorem backupVolume_continue (c : GlobalEnv) (v : VolInput)
    (h : isSkipped v ∨ (v.createErr = none ∧ v.startOutcome ≠ .panic)) :
    (backupVolume c v).exitCode = none ∧ (backupVolume c v).panicked = false := by
  rcases h with h | ⟨hc, hs⟩
  · rcases h with h | h
    · simp [backupVolume, h]
    · by_cases h64 : v.name.length = 64 <;> simp [backupVolume, h, h64]
  · by_cases h64 : v.name.length = 64
    · simp [backupVolume, h64]
    · by_cases hig : getVolumeLabel v ".ignore" = "true"
      · simp [backupVolume, h64, hig]
      · cases hso : v.startOutcome with
        | ok => simp [backupVolume, h64, hig, hc, hso]
        | fail e => simp [backupVolume, h64, hig, hc, hso]
        | panic => exact absurd hso hs

/-- When every volume is inspectable and non-aborting, the loop reaches the
end of the list. -/
theorem processVolumes_completed (c : GlobalEnv) :
    ∀ (vols : List VolInput) (prevErr : Option String),
      (∀ v ∈ vols, noAbort v) →
      (processVolumes c prevErr vols).outcome = .completed := by
  intro vols
  induction vols with
  | nil => intro prevErr _; rfl
  | cons v tail ih =>
    intro prevErr h
    obtain ⟨hins, hrest⟩ := h v (List.mem_cons_self v tail)
    obtain ⟨hA, hB⟩ := backupVolume_continue c v hrest
    simp [processVolumes, hins, hA, hB]
    exact ih _ (fun u hu => h u (List.mem_cons_of_mem v hu))

/-- A volume whose start call fails has its failure recorded in the error
log while the loop runs to the end. -/
theorem processVolumes_logs_start_failure (c : GlobalEnv) :
    ∀ (vols : List VolInput) (prevErr : Option String) (v : VolInput)
      (f : String), v ∈ vols → (∀ u ∈ vols, noAbort u) → ¬ isSkipped v →
      v.startOutcome = .fail f →
      ("Failed to process volume " ++ v.name ++ ": " ++ f) ∈
        (processVolumes c prevErr vols).errlog := by
  intro vols
  induction vols with
  | nil => intro prevErr v f hmem; exact absurd hmem (List.not_mem_nil v)
  | cons u tail ih =>
    intro prevErr v f hmem hall hns hsf
    obtain ⟨hins, hrest⟩ := hall u (List.mem_cons_self u tail)
    obtain ⟨hA, hB⟩ := backupVolume_continue c u hrest
    rcases List.mem_cons.mp hmem with rfl | hmem2
    · have hnotskip := hns
      rw [isSkipped, not_or] at hnotskip
      obtain ⟨h64, hig⟩ := hnotskip
      have hc : v.createErr = none := by
        rcases hrest with hsk | ⟨hc, _⟩
        · exact absurd hsk hns
        · exact hc
      have herr : (backupVolume c v).err = some f := by
        simp [backupVolume, h64, hig, hc, hsf]
      simp [processVolumes, hins, hA, hB, herr, checkErrLog]
    · have := ih (backupVolume c u).err v f hmem2
        (fun w hw => hall w (List.mem_cons_of_mem u hw)) hns hsf
      simp [processVolumes, hins, hA, hB]
      tauto

/-- After any run of non-aborting volumes, a volume whose container creation
fails makes the whole run exit with code 1. -/
theorem processVolumes_create_abort (c : GlobalEnv) :
    ∀ (pre : List VolInput) (prevErr : Option String) (v : VolInput)
      (post : List VolInput),
      (∀ u ∈ pre, noAbort u) → v.inspectErr = none → ¬ isSkipped v →
      (v.createErr).isSome = true →
      (processVolumes c prevErr (pre ++ v :: post)).outcome = .exited 1 := by
  intro pre
  induction pre with
  | nil =>
    intro prevErr v post _ hins hns hc
    rw [isSkipped, not_or] at hns
    obtain ⟨h64, hig⟩ := hns
    obtain ⟨e, he⟩ := Option.isSome_iff_exists.mp hc
    have hx : (backupVolume c v).exitCode = some 1 := by
      simp [backupVolume, h64, hig, he]
    simp [processVolumes, hins, hx]
  | cons u pre ih =>
    intro prevErr v post hall hins hns hc
    obtain ⟨huins, hurest⟩ := hall u (List.mem_cons_self u pre)
    obtain ⟨hA, hB⟩ := backupVolume_continue c u hurest
    simp [processVolumes, huins, hA, hB]
    exact ih _ v post (fun w hw => hall w (List.mem_cons_of_mem u hw))
      hins hns hc

/-- C4 (amended): a volume-listing failure or an image-availability failure
exits the run with code 1 before any volume is processed; when every volume
is inspectable, is skipped or has its worker created and started without a
panic, the loop completes and records each start failure in the error log;
but a per-volume container-creation failure exits the whole run with code 1
(and an inspect failure crashes it), so not every per-volume failure is
isolated. -/
theorem orchestration_failure_policy (c : GlobalEnv) (e : String)
    (vols : List VolInput) :
    (mainRun c (some e) true none vols).outcome = .exited 1 ∧
    (mainRun c none false (some e) vols).outcome = .exited 1 ∧
    ((∀ v ∈ vols, noAbort v) →
      (mainRun c none true none vols).outcome = .completed ∧
      (∀ v ∈ vols, ∀ f, ¬ isSkipped v → v.startOutcome = .fail f →
        ("Failed to process volume " ++ v.name ++ ": " ++ f) ∈
          (mainRun c none true none vols).errlog)) ∧
    (∀ pre v post, vols = pre ++ v :: post → (∀ u ∈ pre, noAbort u) →
      v.inspectErr = none → ¬ isSkipped v → (v.createErr).isSome = true →
      (mainRun c none true none vols).outcome = .exited 1) := by
  refine ⟨rfl, rfl, ?_, ?_⟩
  · intro hall
    constructor
    · simpa [mainRun, pullImage] using processVolumes_completed c vols none hall
    · intro v hmem f hns hsf
      simpa [mainRun, pullImage] using
        processVolumes_logs_start_failure c vols none v f hmem hall hns hsf
  · intro pre v post hsplit hall hins hns hc
    rw [hsplit]
    simpa [mainRun, pullImage] using
      processVolumes_create_abort c pre none v post hall hins hns hc

/-- C4 witness: a listing failure is fatal; a run whose only volume has a
failing start completes with the failure recorded; a run whose first volume
has a failing container creation exits with code 1. -/
theorem orchestration_failure_policy_witness :
    (mainRun gEnv (some "cannot connect to docker socket") true none []).outcome =
      .exited 1 ∧
    (mainRun gEnv none true none [startFailVol]).outcome = .completed ∧
    ("Failed to process volume sf: nope" ∈
      (mainRun gEnv none true none [startFailVol]).errlog) ∧
    (mainRun gEnv none true none [createFailVol]).outcome = .exited 1 :=
  ⟨(orchestration_failure_policy gEnv "cannot connect to docker socket" []).1,
   ((orchestration_failure_policy gEnv "x" [startFailVol]).2.2.1 (by decide)).1,
   ((orchestration_failure_policy gEnv "x" [startFailVol]).2.2.1 (by decide)).2
     startFailVol (List.mem_cons_self _ _) "nope" (by decide) rfl,
   (orchestration_failure_policy gEnv "x" [createFailVol]).2.2.2 [] createFailVol
     [] rfl (by decide) rfl (by decide) rfl⟩

/-- C4 counterexample: with a first volume whose container creation fails and
a second healthy volume, the run exits with code 1 after the first volume's
create attempt — the second volume is never reached, so a per-volume failure
does abort the batch. -/
theorem orchestration_create_abort_counterexample :
    (mainRun gEnv none true none [createFailVol, startFailVol]).outcome =
      .exited 1 ∧
    (mainRun gEnv none true none [createFailVol, startFailVol]).events =
      [Event.createAttempt
        ["--full-if-older-than", "15D", "--s3-use-new-style", "--no-encryption",
         "--allow-source-mismatch", "/var/backups", "s3://bucket/host1/cf"]
        ["AWS_ACCESS_KEY_ID=", "AWS_SECRET_ACCESS_KEY=", "SWIFT_USERNAME=",
         "SWIFT_PASSWORD=", "SWIFT_AUTHURL=", "SWIFT_TENANTNAME=",
         "SWIFT_REGIONNAME=", "SWIFT_AUTHVERSION=2"]] := by
  constructor <;> rfl

/-! ### Retention label resolution (C7) -/

/-- C7 (amended): for every non-skipped volume, the first Docker call is the
container creation, and the retention threshold at position 1 of the command
(right after `--full-if-older-than`) is the label value when the
`io.conplicity.full_if_older_than` label is present with a non-empty value,
and the global default when the label is absent or present with the empty
value. -/
theorem retention_label_resolution (c : GlobalEnv) (v : VolInput)
    (h64 : ¬ v.name.length = 64)
    (hig : ¬ getVolumeLabel v ".ignore" = "true") :
    ∃ cmd env,
      (backupVolume c v).events.head? = some (Event.createAttempt cmd env) ∧
      (∀ s, v.labels.lookup "io.conplicity.full_if_older_than" = some s →
        ¬ s = "" → cmd[1]? = some s) ∧
      ((v.labels.lookup "io.conplicity.full_if_older_than" = none ∨
        v.labels.lookup "io.conplicity.full_if_older_than" = some "") →
        cmd[1]? = some c.fullIfOlderThan) := by
  have hkey : ("io.conplicity" ++ ".full_if_older_than" : String) =
      "io.conplicity.full_if_older_than" := rfl
  refine ⟨["--full-if-older-than",
    if getVolumeLabel v ".full_if_older_than" = "" then c.fullIfOlderThan
    else getVolumeLabel v ".full_if_older_than", "--s3-use-new-style",
    "--no-encryption", "--allow-source-mismatch", "/var/backups",
    c.duplicityTargetURL ++ "/" ++ c.hostname ++ "/" ++ v.name],
    ["AWS_ACCESS_KEY_ID=" ++ c.awsAccessKeyID,
     "AWS_SECRET_ACCESS_KEY=" ++ c.awsSecretAccessKey,
     "SWIFT_USERNAME=" ++ c.swiftUsername,
     "SWIFT_PASSWORD=" ++ c.swiftPassword,
     "SWIFT_AUTHURL=" ++ c.swiftAuthURL,
     "SWIFT_TENANTNAME=" ++ c.swiftTenantName,
     "SWIFT_REGIONNAME=" ++ c.swiftRegionName,
     "SWIFT_AUTHVERSION=2"], ?_, ?_, ?_⟩
  · cases hce : v.createErr with
    | some e => simp [backupVolume, h64, hig, hce]
    | none =>
      cases hso : v.startOutcome <;> simp [backupVolume, h64, hig, hce, hso]
  · intro s hs hne
    simp [getVolumeLabel, hkey, hs, hne]
  · intro hcase
    rcases hcase with hs | hs <;> simp [getVolumeLabel, hkey, hs]

/-- C7 witness: a volume with a non-empty label override and a volume with no
label. -/
theorem retention_label_resolution_witness :
    (∃ cmd env, (backupVolume gEnv
        ⟨"lv", "local", "/mnt/lv",
         [("io.conplicity.full_if_older_than", "30D")], none, none, .ok⟩).events.head? =
        some (Event.createAttempt cmd env) ∧ cmd[1]? = some "30D") ∧
    (∃ cmd env, (backupVolume gEnv startFailVol).events.head? =
        some (Event.createAttempt cmd env) ∧ cmd[1]? = some "15D") := by
  constructor
  · obtain ⟨cmd, env, h1, h2, _⟩ := retention_label_resolution gEnv
      ⟨"lv", "local", "/mnt/lv", [("io.conplicity.full_if_older_than", "30D")],
       none, none, .ok⟩ (by decide) (by decide)
    exact ⟨cmd, env, h1, h2 "30D" rfl (by decide)⟩
  · obtain ⟨cmd, env, h1, _, h3⟩ := retention_label_resolution gEnv
      startFailVol (by decide) (by decide)
    exact ⟨cmd, env, h1, h3 (Or.inl rfl)⟩

/-- C7 counterexample: a volume carrying the retention-override label with
the empty value receives the global default `15D` in the constructed command,
not the label's value. -/
theorem retention_empty_label_counterexample :
    emptyLabelVol.labels.lookup "io.conplicity.full_if_older_than" = some "" ∧
    gEnv.fullIfOlderThan = "15D" ∧
    (backupVolume gEnv emptyLabelVol).events.head? = some
      (Event.createAttempt
        ["--full-if-older-than", "15D", "--s3-use-new-style", "--no-encryption",
         "--allow-source-mismatch", "/var/backups", "s3://bucket/host1/el"]
        ["AWS_ACCESS_KEY_ID=", "AWS_SECRET_ACCESS_KEY=", "SWIFT_USERNAME=",
         "SWIFT_PASSWORD=", "SWIFT_AUTHURL=", "SWIFT_TENANTNAME=",
         "SWIFT_REGIONNAME=", "SWIFT_AUTHVERSION=2"]) := by
  refine ⟨rfl, rfl, rfl⟩

end Conplicity
